import Mathlib

/-!
Verification development for the IIoT predictive-maintenance sensor simulator.

The embedding follows the three core modules of the repository:

* `sensors/src/sensor_factory.py` — the probabilistic per-sensor value model
  (`GenericSensor`, `VibrationSensor`, `TemperatureSensor`, `CurrentSensor`,
  `create_sensor`);
* `sensors/src/prediction_engine.py` — the run-to-failure lifecycle engine
  (`PredictionEngine`);
* `sensors/src/main.py` — the topology builder and the publish loop.

Randomness is made explicit: every random draw of the Python code becomes a
parameter of the embedded function.

* `random.random()` samples become a `dice` parameter (the claims that need it
  assume `0 ≤ dice`, reflecting the support `[0, 1)`);
* `random.uniform(a, b)` becomes `uniform a b u` = `a + (b - a) * u`, with the
  sample `u` ranging over `[0, 1]`;
* `np.random.normal(0, sigma)` becomes `sigma * z`, where `z` is a standard
  normal sample (an arbitrary real / rational);
* `np.random.randint(800, 2000)` becomes a natural number carrying the proofs
  `800 ≤ n` and `n < 2000` that describe the support of that distribution.

The generic sensor model only uses field operations, `min`/`max` and rounding,
so it is embedded over `ℚ` and stays fully executable.  The lifecycle engine
and the vibration physics engine use `x ** y`, `sin`, `sqrt` and `pi`, so they
are embedded over `ℝ`.

Python `round(x, 2)` is embedded as `round2 x = round (100 * x) / 100`.  The
only divergence is the tie-breaking rule (Python rounds half to even); no
theorem or concrete evaluation below sits on an exact half tick.
-/

/-- Embedding of Python `round(x, 2)`: round to two decimal digits. -/
def round2 {α : Type} [LinearOrderedField α] [FloorRing α] (x : α) : α :=
  (round (100 * x) : ℤ) / 100

/-- Embedding of `random.uniform(a, b)`: the drawn value written as a function
of a sample `u`, intended to range over `[0, 1]`. -/
def uniform (a b u : ℚ) : ℚ :=
  a + (b - a) * u

/-- Embedding of the configuration record a sensor of `sensor_factory.py` is
constructed from (`GenericSensor.__init__`): kind tag, unit, `min`/`max` range,
resolved `base_val`, and the two thresholds.  The Python code tolerates missing
thresholds (`thresholds.get(..., None)`); the claims only concern sensors whose
thresholds are present, so the fields are total here. -/
structure SensorConfig where
  type : String
  unit : String
  min : ℚ
  max : ℚ
  base_val : ℚ
  warning_threshold : ℚ
  critical_threshold : ℚ

namespace GenericSensor

/-- Embedding of `GenericSensor._generate_state_based_value`.  `dice` is the
`random.random()` sample, `z` the standard normal sample behind
`np.random.normal(0, (warning_threshold - base_val) * 0.1)`, and `uW`, `uC`
the samples behind the two `random.uniform` calls. -/
def generate_state_based_value
    (c : SensorConfig) (normal_state_prob warning_state_prob dice z uW uC : ℚ) : ℚ :=
  if dice < normal_state_prob then
    min (c.base_val + (c.warning_threshold - c.base_val) * 0.1 * z)
      (c.warning_threshold - 0.1)
  else if dice < warning_state_prob then
    uniform c.warning_threshold c.critical_threshold uW
  else
    uniform c.critical_threshold c.max uC

/-- Embedding of `GenericSensor.simulate`: round the generated value to two
decimals (note: no flooring at 0 on this base-class path). -/
def simulate (c : SensorConfig) (pn pw dice z uW uC : ℚ) : ℚ :=
  round2 (generate_state_based_value c pn pw dice z uW uC)

end GenericSensor

namespace TemperatureSensor

/-- Embedding of `TemperatureSensor.simulate`: floor at 0.0, then round. -/
def simulate (c : SensorConfig) (pn pw dice z uW uC : ℚ) : ℚ :=
  round2 (max 0 (GenericSensor.generate_state_based_value c pn pw dice z uW uC))

end TemperatureSensor

namespace CurrentSensor

/-- Embedding of `CurrentSensor.simulate`: floor at 0.0, then round. -/
def simulate (c : SensorConfig) (pn pw dice z uW uC : ℚ) : ℚ :=
  round2 (max 0 (GenericSensor.generate_state_based_value c pn pw dice z uW uC))

end CurrentSensor

namespace VibrationSensor

/-- Embedding of the target-selection part of `VibrationSensor.simulate`
(the override): in the Normal branch the target is
`base_val + random.uniform(-0.01, 0.01)` (sample `u`), in the Warning and
Critical branches it is drawn exactly as in the generic model. -/
def target_rms (c : SensorConfig) (normal_state_prob warning_state_prob dice u uW uC : ℚ) : ℚ :=
  if dice < normal_state_prob then
    c.base_val + uniform (-0.01) 0.01 u
  else if dice < warning_state_prob then
    uniform c.warning_threshold c.critical_threshold uW
  else
    uniform c.critical_threshold c.max uC

/-- Embedding of `VibrationSensor._physics_engine_g_rms`: one second of a
50 Hz sinusoid sampled at 1000 Hz (`t i = i / 1000` for `i < 1000`), per-sample
Gaussian noise `np.random.normal(0, 0.05 * target_peak_g)` modeled as
`0.05 * target_peak_g * z i`, and the RMS of the noisy signal. -/
noncomputable def physics_engine_g_rms (target_peak_g : ℝ) (z : ℕ → ℝ) : ℝ :=
  Real.sqrt ((∑ i in Finset.range 1000,
    (target_peak_g * Real.sin (2 * Real.pi * 50 * ((i : ℝ) / 1000)) +
      0.05 * target_peak_g * z i) ^ 2) / 1000)

/-- Embedding of `VibrationSensor.simulate`: select a target RMS, convert it
to a peak amplitude (`peak = rms * sqrt 2`), synthesize and measure the wave,
then floor at 0.0 and round. -/
noncomputable def simulate (c : SensorConfig) (pn pw dice u uW uC : ℚ) (z : ℕ → ℝ) : ℝ :=
  round2 (max 0
    (physics_engine_g_rms (((target_rms c pn pw dice u uW uC : ℚ) : ℝ) * Real.sqrt 2) z))

end VibrationSensor

/-- A constructed sensor instance: the tagged variant produced by
`create_sensor` in `sensor_factory.py`. -/
inductive Sensor where
  | vibration (c : SensorConfig)
  | temperature (c : SensorConfig)
  | current (c : SensorConfig)

/-- Embedding of `create_sensor`: dispatch on the `type` field, raising
`ValueError(f"Unknown sensor type: {sensor_type}")` on anything else.  The
exception is modeled with `Except.error`. -/
def create_sensor (c : SensorConfig) : Except String Sensor :=
  if c.type = "vibration" then Except.ok (Sensor.vibration c)
  else if c.type = "temperature" then Except.ok (Sensor.temperature c)
  else if c.type = "current" then Except.ok (Sensor.current c)
  else Except.error ("Unknown sensor type: " ++ c.type)

/-- Cached sensor values of the lifecycle engine: the numeric entries of the
`self.current_values` dictionary built by `PredictionEngine.step` (the
dictionary also stores the motor id string, kept separately in `EngineState`).
-/
structure EngineValues where
  vibration : ℝ
  temperature : ℝ
  current : ℝ

/-- State of `PredictionEngine` (`prediction_engine.py`): the motor id, the
lifecycle parameters assigned by `reset_lifecycle`, the tick counter, and the
cached value dictionary (`none` models the initial empty dictionary `{}`). -/
structure EngineState where
  motor_id : String
  total_life : ℕ
  current_tick : ℕ
  exponent : ℝ
  vib_base : ℝ
  vib_failure : ℝ
  temp_base : ℝ
  temp_failure : ℝ
  curr_base : ℝ
  curr_failure : ℝ
  current_values : Option EngineValues

/-- The random draws consumed by one `reset_lifecycle` call.  `total_life`
comes from `np.random.randint(800, 2000)`, whose support `[800, 2000)` is part
of the structure; the remaining fields are the values drawn by the
`np.random.uniform` calls for the degradation exponent and the per-signal
base / failure levels. -/
structure LifecycleDraws where
  total_life : ℕ
  total_life_lb : 800 ≤ total_life
  total_life_ub : total_life < 2000
  exponent : ℝ
  vib_base : ℝ
  vib_failure : ℝ
  temp_base : ℝ
  temp_failure : ℝ
  curr_base : ℝ
  curr_failure : ℝ

/-- The three Gaussian noise values drawn by one compute pass of
`PredictionEngine.step`: `np.random.normal(0, 0.15)``, `np.random.normal(0, 1.0)`
and `np.random.normal(0, 0.8)` respectively. -/
structure StepNoise where
  vib : ℝ
  temp : ℝ
  curr : ℝ

/-- The randomness available to one `PredictionEngine.step` call: the draws of
a possible `reset_lifecycle` (including the noise of the step call that
`reset_lifecycle` itself performs), and the noise of the own compute pass. -/
structure StepRand where
  reset : LifecycleDraws
  resetNoise : StepNoise
  noise : StepNoise

namespace PredictionEngine

/-- The `fault_progression = (self.current_tick / self.total_life) ** self.exponent`
computation of `PredictionEngine.step` (real exponentiation, as in Python). -/
noncomputable def fault_progression (s : EngineState) : ℝ :=
  ((s.current_tick : ℝ) / (s.total_life : ℝ)) ^ s.exponent

/-- The three sensor values computed by one compute pass of
`PredictionEngine.step` at the current tick of `s`:
`base + (failure - base) * fault_progression + noise` per signal, the raw
vibration floored at 0 (`np.maximum(vibration, 0)`) and converted to g by
`vibration * (2 * pi * 50) / 9806.65`, all three rounded to two decimals. -/
noncomputable def stepValues (s : EngineState) (nz : StepNoise) : EngineValues :=
  let fp := fault_progression s
  let vibration := s.vib_base + (s.vib_failure - s.vib_base) * fp + nz.vib
  let vibrationFloored := max vibration 0
  let omega := 2 * Real.pi * 50
  let vibration_g := vibrationFloored * omega / 9806.65
  let temperature := s.temp_base + (s.temp_failure - s.temp_base) * fp + nz.temp
  let current := s.curr_base + (s.curr_failure - s.curr_base) * fp + nz.curr
  ⟨round2 vibration_g, round2 temperature, round2 current⟩

/-- The non-reset part of `PredictionEngine.step`: cache the values computed
at the current tick, then increment the tick. -/
noncomputable def computePhase (s : EngineState) (nz : StepNoise) : EngineState :=
  { s with current_values := some (stepValues s nz),
           current_tick := s.current_tick + 1 }

/-- The assignment part of `PredictionEngine.reset_lifecycle`: store the fresh
draws and reset `current_tick` to 0 (the cached values are not cleared by the
Python code either). -/
def applyDraws (s : EngineState) (d : LifecycleDraws) : EngineState :=
  { s with total_life := d.total_life,
           current_tick := 0,
           exponent := d.exponent,
           vib_base := d.vib_base,
           vib_failure := d.vib_failure,
           temp_base := d.temp_base,
           temp_failure := d.temp_failure,
           curr_base := d.curr_base,
           curr_failure := d.curr_failure }

/-- Embedding of `PredictionEngine.reset_lifecycle`: assign fresh lifecycle
draws, reset the tick to 0, then perform the trailing `self.step()` call.
That inner step re-checks `current_tick >= total_life`, which is `0 >= total_life`
at this point and always false (`total_life` is drawn from `[800, 2000)`), so
the inner step is exactly one compute pass. -/
noncomputable def reset_lifecycle (s : EngineState) (d : LifecycleDraws) (nz : StepNoise) :
    EngineState :=
  computePhase (applyDraws s d) nz

/-- Embedding of `PredictionEngine.step`: if the lifecycle is over
(`current_tick >= total_life`), reset (which itself performs one compute pass),
and in every case run one compute pass at the now-current tick. -/
noncomputable def step (s : EngineState) (r : StepRand) : EngineState :=
  if s.total_life ≤ s.current_tick then
    computePhase (reset_lifecycle s r.reset r.resetNoise) r.noise
  else
    computePhase s r.noise

/-- The state `PredictionEngine.__init__` sets up before calling
`reset_lifecycle`: the motor id and an empty value dictionary.  The numeric
attributes do not exist yet in Python at this point; the placeholder zeros
here are all assigned by `reset_lifecycle` before first use. -/
def initState (motor_id : String) : EngineState :=
  ⟨motor_id, 0, 0, 0, 0, 0, 0, 0, 0, 0, none⟩

/-- Embedding of `PredictionEngine.__init__`: set up the blank state, then
call `reset_lifecycle`. -/
noncomputable def init (motor_id : String) (d : LifecycleDraws) (nz : StepNoise) :
    EngineState :=
  reset_lifecycle (initState motor_id) d nz

/-- Embedding of `PredictionEngine.get_value`:
`self.current_values.get(sensor_type, 0.0)` over the three numeric keys of the
dictionary (its `motor_id` entry holds a string, not a reading, and is not
retrievable as a value here). -/
def get_value (s : EngineState) (sensor_type : String) : ℝ :=
  match s.current_values with
  | none => 0
  | some v =>
    if sensor_type = "vibration" then v.vibration
    else if sensor_type = "temperature" then v.temperature
    else if sensor_type = "current" then v.current
    else 0

/-- Iterated `step`: the engine after `n` scheduler-driven advances, the
advance with index `k` consuming the draws `rs k`. -/
noncomputable def run (s : EngineState) (rs : ℕ → StepRand) : ℕ → EngineState
  | 0 => s
  | n + 1 => step (run s rs n) (rs n)

end PredictionEngine

/-- Concrete lifecycle draws for witnesses: total life 800, all real draws 0. -/
def lifecycleDraws0 : LifecycleDraws :=
  ⟨800, by decide, by decide, 0, 0, 0, 0, 0, 0, 0⟩

/-- Concrete step randomness for witnesses. -/
def stepRand0 : StepRand :=
  ⟨lifecycleDraws0, ⟨0, 0, 0⟩, ⟨0, 0, 0⟩⟩

/-- One level of the hierarchical topology configuration (`config.topology`):
an instance count and an identifier word (the `prefix` key of the JSON). -/
structure TopoLevel where
  count : ℕ
  pfx : String

/-- The `topology` section of the configuration consumed by `main.py`. -/
structure TopoConfig where
  sectors : TopoLevel
  lines_per_sector : TopoLevel
  assets_per_line : TopoLevel

/-- One entry of the `templates.standard_motor` list of the configuration, as
read by the topology loop of `main.py`. -/
structure TemplateSensor where
  type : String
  unit : String
  min : ℚ
  max : ℚ
  base_val_avg : ℚ
  base_val_variance : ℚ
  warning : ℚ
  critical : ℚ

/-- Embedding of the hard-coded designated lifecycle asset identifier
`PREDICTION_ID = "sector_1/line_1/engine_1"` of `main.py`. -/
def PREDICTION_ID : String := "sector_1/line_1/engine_1"

/-- The `full_id = f"{sector_id}/{line_id}/{asset_id}"` string of the topology
loop, where each level id is `f"{prefix}_{index}"`. -/
def full_id (cfg : TopoConfig) (s l a : ℕ) : String :=
  cfg.sectors.pfx ++ "_" ++ toString s ++ "/" ++
    cfg.lines_per_sector.pfx ++ "_" ++ toString l ++ "/" ++
    cfg.assets_per_line.pfx ++ "_" ++ toString a

/-- The per-instance sensor configuration built by the topology loop for a
non-designated asset: a copy of the template entry with
`base_val = base_val_avg + random.uniform(-base_val_variance, base_val_variance)`
(sample `u`). -/
def mkSensorConf (t : TemplateSensor) (u : ℚ) : SensorConfig :=
  { type := t.type
    unit := t.unit
    min := t.min
    max := t.max
    base_val := t.base_val_avg + uniform (-t.base_val_variance) t.base_val_variance u
    warning_threshold := t.warning
    critical_threshold := t.critical }

/-- The producer stored in a registry entry (`sensor_entry["obj"]` together
with `sensor_entry["mode"]`): either an own sensor instance, or a reference to
the one shared `PredictionEngine` (created once at module level in `main.py`).
-/
inductive ProducerMode where
  | standard (sensor : Sensor)
  | prediction_engine

/-- One element of the `active_sensors` list built by the topology loop of
`main.py`. -/
structure RegistryEntry where
  topic : String
  type : String
  unit : String
  warning_threshold : ℚ
  critical_threshold : ℚ
  mode : ProducerMode

/-- Construction of one `sensor_entry` of the topology loop: the topic is
`f"{full_id}/{sensor_type}"`; if the full id equals `PREDICTION_ID` the entry
is bound to the shared engine, otherwise `create_sensor` runs on the
instance-specific configuration (and its `ValueError` propagates). -/
def buildEntry (cfg : TopoConfig) (t : TemplateSensor) (s l a : ℕ) (u : ℚ) :
    Except String RegistryEntry :=
  let fid := full_id cfg s l a
  let topic := fid ++ "/" ++ t.type
  if fid = PREDICTION_ID then
    Except.ok
      { topic := topic, type := t.type, unit := t.unit,
        warning_threshold := t.warning, critical_threshold := t.critical,
        mode := ProducerMode.prediction_engine }
  else
    (create_sensor (mkSensorConf t u)).map fun sensor =>
      { topic := topic, type := t.type, unit := t.unit,
        warning_threshold := t.warning, critical_threshold := t.critical,
        mode := ProducerMode.standard sensor }

/-- The innermost template loop of the topology generation, for one asset.
The random draws are supplied per position: `dr s l a k` is the
`random.uniform(-variance, variance)` sample consumed for template entry `k`
of asset `(s, l, a)`. -/
def buildAsset (cfg : TopoConfig) (tpl : List TemplateSensor) (s l a : ℕ)
    (dr : ℕ → ℕ → ℕ → ℕ → ℚ) : Except String (List RegistryEntry) :=
  tpl.enum.mapM fun kt => buildEntry cfg kt.2 s l a (dr s l a kt.1)

/-- The asset loop of the topology generation, for one line: the entries of
all assets of line `l` of sector `s`, in asset order. -/
def buildLine (cfg : TopoConfig) (tpl : List TemplateSensor) (s l : ℕ)
    (dr : ℕ → ℕ → ℕ → ℕ → ℚ) : Except String (List RegistryEntry) := do
  let assetLists ← (List.range' 1 cfg.assets_per_line.count).mapM fun a =>
    buildAsset cfg tpl s l a dr
  pure assetLists.flatten

/-- The line loop of the topology generation, for one sector. -/
def buildSector (cfg : TopoConfig) (tpl : List TemplateSensor) (s : ℕ)
    (dr : ℕ → ℕ → ℕ → ℕ → ℚ) : Except String (List RegistryEntry) := do
  let lineLists ← (List.range' 1 cfg.lines_per_sector.count).mapM fun l =>
    buildLine cfg tpl s l dr
  pure lineLists.flatten

/-- Embedding of the procedural topology generation of `main.py` (the three
nested `for` loops over `range(1, count + 1)` appending to `active_sensors`);
the first raised `ValueError` aborts the whole construction, as an exception
at module level does. -/
def buildTopology (cfg : TopoConfig) (tpl : List TemplateSensor)
    (dr : ℕ → ℕ → ℕ → ℕ → ℚ) : Except String (List RegistryEntry) := do
  let sectorLists ← (List.range' 1 cfg.sectors.count).mapM fun s =>
    buildSector cfg tpl s dr
  pure sectorLists.flatten

/-- Total companion of `create_sensor`, meaningful on recognized types only:
the sensor variant `create_sensor` returns on its success paths. -/
def sensorOf (c : SensorConfig) : Sensor :=
  if c.type = "vibration" then Sensor.vibration c
  else if c.type = "temperature" then Sensor.temperature c
  else Sensor.current c

/-- The registry entry produced for template entry `t` of asset `(s, l, a)`
when no exception occurs. -/
def entryOf (cfg : TopoConfig) (t : TemplateSensor) (s l a : ℕ) (u : ℚ) :
    RegistryEntry :=
  let fid := full_id cfg s l a
  { topic := fid ++ "/" ++ t.type, type := t.type, unit := t.unit,
    warning_threshold := t.warning, critical_threshold := t.critical,
    mode := if fid = PREDICTION_ID then ProducerMode.prediction_engine
            else ProducerMode.standard (sensorOf (mkSensorConf t u)) }

/-- The registry the exception-free run of the topology loop produces, as a
pure nested flatMap. -/
def registryOf (cfg : TopoConfig) (tpl : List TemplateSensor)
    (dr : ℕ → ℕ → ℕ → ℕ → ℚ) : List RegistryEntry :=
  (List.range' 1 cfg.sectors.count).flatMap fun s =>
    (List.range' 1 cfg.lines_per_sector.count).flatMap fun l =>
      (List.range' 1 cfg.assets_per_line.count).flatMap fun a =>
        tpl.enum.map fun kt => entryOf cfg kt.2 s l a (dr s l a kt.1)

/-- Topic strings of a topology-build result (empty on a build error). -/
def topicsOf : Except String (List RegistryEntry) → List String
  | Except.ok reg => reg.map (fun e => e.topic)
  | Except.error _ => []

/-- The error string of an `Except` result, when there is one. -/
def errOf {α : Type} : Except String α → Option String
  | Except.error e => some e
  | Except.ok _ => none

/-- Whether a registry entry is bound to the shared lifecycle engine. -/
def isPredMode (e : RegistryEntry) : Bool :=
  match e.mode with
  | ProducerMode.prediction_engine => true
  | ProducerMode.standard _ => false

/-- Number of engine-bound entries of a topology-build result. -/
def predCount : Except String (List RegistryEntry) → ℕ
  | Except.ok reg => reg.countP isPredMode
  | Except.error _ => 0

/-- Topics of the engine-bound entries of a topology-build result. -/
def predTopics : Except String (List RegistryEntry) → List String
  | Except.ok reg => (reg.filter isPredMode).map (fun e => e.topic)
  | Except.error _ => []

/-- Modelled from the spec: the repository configuration file
`sensors/config/sensor_config.json` is not under `src/`, so the
`templates.standard_motor` list is reconstructed from the spec (section 6):
one entry per kind `{vibration, temperature, current}`, each with
`{type, unit, min, max, base_val_avg, base_val_variance, thresholds}`.  Only
the `type` fields influence the claims below; the numbers are representative
(the vibration thresholds follow the ISO 10816 bands quoted in the source
comments). -/
def standard_motor : List TemplateSensor :=
  [⟨"vibration", "g", 0, 1, 0.1, 0.01, 0.14, 0.23⟩,
   ⟨"temperature", "C", 0, 200, 90, 2, 105, 130⟩,
   ⟨"current", "A", 0, 150, 90, 1, 100, 110⟩]

/-- The standard topology prefixes with two sectors, two lines per sector and
two assets per line. -/
def cfgStd222 : TopoConfig :=
  ⟨⟨2, "sector"⟩, ⟨2, "line"⟩, ⟨2, "engine"⟩⟩

/-- A concrete base-value draw stream for witnesses. -/
def drawZero : ℕ → ℕ → ℕ → ℕ → ℚ := fun _ _ _ _ => 0

/-- The random draws one `sensor.simulate(...)` call may consume in the
publish loop: the state dice, the generic-model Gaussian sample, the three
uniform samples, and the per-sample physics noise of the vibration variant. -/
structure SensorDraws where
  dice : ℚ
  z : ℚ
  u : ℚ
  uW : ℚ
  uC : ℚ
  phys : ℕ → ℝ

/-- Dynamic dispatch of `sensor.simulate(normal_state_prob, warning_state_prob)`
over the sensor variants (rational readings of the generic sensors are cast
into the common real-valued message domain). -/
noncomputable def Sensor.simulate (sensor : Sensor) (pn pw : ℚ) (d : SensorDraws) : ℝ :=
  match sensor with
  | Sensor.vibration c => VibrationSensor.simulate c pn pw d.dice d.u d.uW d.uC d.phys
  | Sensor.temperature c => ((TemperatureSensor.simulate c pn pw d.dice d.z d.uW d.uC : ℚ) : ℝ)
  | Sensor.current c => ((CurrentSensor.simulate c pn pw d.dice d.z d.uW d.uC : ℚ) : ℝ)

/-- The per-entry fan-out of one publish-loop iteration of `main.py`: for
every registry entry, in registry order, one `(topic, value)` pair, the value
coming from `get_value` for engine-bound entries and from `simulate` for
standard entries (`dr i` holds the draws consumed by entry number `i`). -/
noncomputable def tickMessages (reg : List RegistryEntry) (eng : EngineState)
    (pn pw : ℚ) (dr : ℕ → SensorDraws) : List (String × ℝ) :=
  reg.enum.map fun ie =>
    (ie.2.topic,
      match ie.2.mode with
      | ProducerMode.prediction_engine => PredictionEngine.get_value eng ie.2.type
      | ProducerMode.standard sensor => Sensor.simulate sensor pn pw (dr ie.1))

/-- The publish loop of `main.py`, run for a given number of iterations: each
iteration advances the engine exactly once and then fans out over the
registry.  `er n` and `sr n` hold the randomness of iteration `n`. -/
noncomputable def simLoop (reg : List RegistryEntry) (pn pw : ℚ)
    (er : ℕ → StepRand) (sr : ℕ → ℕ → SensorDraws) :
    EngineState → ℕ → EngineState × List (List (String × ℝ))
  | eng, 0 => (eng, [])
  | eng, n + 1 =>
    let p := simLoop reg pn pw er sr eng n
    let eng2 := PredictionEngine.step p.1 (er n)
    (eng2, p.2 ++ [tickMessages reg eng2 pn pw (sr n)])

/-- The startup-then-loop sequencing of `main.py`: the engine is created and
the topology is generated at module level; only if the generation raises no
exception is the publish loop entered, for `n` iterations here.  (The broker
connection retry sits between the two and can only delay, never fail.) -/
noncomputable def runSim (cfg : TopoConfig) (tpl : List TemplateSensor)
    (dr : ℕ → ℕ → ℕ → ℕ → ℚ) (pn pw : ℚ) (er : ℕ → StepRand)
    (sr : ℕ → ℕ → SensorDraws) (d : LifecycleDraws) (nz : StepNoise) (n : ℕ) :
    Except String (EngineState × List (List (String × ℝ))) :=
  (buildTopology cfg tpl dr).map fun reg =>
    simLoop reg pn pw er sr (PredictionEngine.init PREDICTION_ID d nz) n

/-- Embedding of the drift-compensation line of the publish loop:
`sleep_time = max(0, INTERVAL - elapsed)`. -/
noncomputable def sleep_time (interval elapsed : ℝ) : ℝ :=
  max 0 (interval - elapsed)

/-- A concrete engine state at the end of its lifecycle (tick = total life),
for exercising the reset path of `step`. -/
def engineAtEnd : EngineState :=
  ⟨"m", 800, 800, 0, 0, 0, 0, 0, 0, 0, none⟩

/-- A concrete engine state in the middle of its lifecycle. -/
def engineMid : EngineState :=
  ⟨"m", 800, 5, 0, 0, 0, 0, 0, 0, 0, none⟩

/-- A concrete vibration sensor configuration whose base value sits less than
0.1 below the warning threshold, separating the two Normal-branch rules. -/
def c3cfg : SensorConfig :=
  ⟨"vibration", "g", 0, 1, 0.5, 0.55, 0.9⟩

/-- A concrete temperature sensor configuration whose critical threshold
0.204 is not a multiple of 0.01, exposing the rounding drop. -/
def c5cfg : SensorConfig :=
  ⟨"temperature", "C", 0, 1, 0.1, 0.15, 0.204⟩

/-- A topology configuration accepted by the builder whose prefixes do not
produce the designated identifier: one asset `zone_1/line_1/engine_1`. -/
def cfgZone : TopoConfig :=
  ⟨⟨1, "zone"⟩, ⟨1, "line"⟩, ⟨1, "engine"⟩⟩

/-- A sensor template containing an unrecognized kind. -/
def tplBad : List TemplateSensor :=
  [⟨"pressure", "Pa", 0, 1, 0, 0, 0, 0⟩]

/-- Concrete per-entry sensor draws for witnesses. -/
def sensorDraws0 : SensorDraws :=
  ⟨0, 0, 0, 0, 0, fun _ => 0⟩

/-! ### Helper lemmas about two-decimal rounding -/

lemma round2_nonneg {α : Type} [LinearOrderedField α] [FloorRing α]
    {x : α} (hx : 0 ≤ x) : 0 ≤ round2 x := by
  unfold round2
  have h : (0 : ℤ) ≤ round (100 * x) := by
    rw [round_eq]
    refine Int.le_floor.mpr ?_
    push_cast
    nlinarith
  exact div_nonneg (by exact_mod_cast h) (by norm_num)

lemma sub_lt_round2 {α : Type} [LinearOrderedField α] [FloorRing α]
    (x : α) : x - 1 / 200 < round2 x := by
  unfold round2
  calc x - 1 / 200 = (100 * x - 1 / 2) / 100 := by ring
  _ < ((round (100 * x) : ℤ) : α) / 100 := by
      gcongr
      exact sub_half_lt_round (100 * x)

/-! ### Claim theorems -/

/-- Claim C9: in every publish-loop iteration the inter-tick sleep duration is
`max(0, configured_interval - elapsed)`: when the iteration finished early the
loop sleeps exactly the remaining part of the interval, and when processing
overran the interval (`elapsed >= interval`) the sleep duration is 0 and the
next tick starts immediately. -/
theorem claim_C9 (interval elapsed : ℝ) :
    (elapsed ≤ interval → sleep_time interval elapsed = interval - elapsed) ∧
    (interval ≤ elapsed → sleep_time interval elapsed = 0) := by
  constructor
  · intro h
    exact max_eq_right (sub_nonneg.mpr h)
  · intro h
    exact max_eq_left (sub_nonpos.mpr h)

/-- Witness for C9: with a 1-second interval, a 0.3-second iteration sleeps
0.7 seconds, and a 2-second iteration does not sleep. -/
theorem claim_C9_witness :
    sleep_time 1 0.3 = 1 - 0.3 ∧ sleep_time 1 2 = 0 :=
  ⟨(claim_C9 1 0.3).1 (by norm_num), (claim_C9 1 2).2 (by norm_num)⟩

/-- Claim C6: vibration readings are never negative on either path: the
physics-synthesis path `VibrationSensor.simulate` returns a nonnegative value
for any inputs, and the vibration value the lifecycle engine computes and
caches in one step is nonnegative for any state and noise. -/
theorem claim_C6 :
    (∀ (c : SensorConfig) (pn pw dice u uW uC : ℚ) (z : ℕ → ℝ),
      0 ≤ VibrationSensor.simulate c pn pw dice u uW uC z) ∧
    (∀ (s : EngineState) (nz : StepNoise),
      0 ≤ (PredictionEngine.stepValues s nz).vibration) := by
  constructor
  · intro c pn pw dice u uW uC z
    exact round2_nonneg (le_max_left 0 _)
  · intro s nz
    show 0 ≤ round2 _
    refine round2_nonneg (div_nonneg (mul_nonneg (le_max_right _ 0) ?_) (by norm_num))
    positivity

/-- Claim C10: constructing a `PredictionEngine` already performs one compute
step: immediately after construction the tick counter equals 1, the value
cache holds the readings computed at tick 0 from the initial lifecycle draws,
and `get_value` returns those computed readings (not the 0.0 default) for all
three sensor kinds. -/
theorem claim_C10 (motor_id : String) (d : LifecycleDraws) (nz : StepNoise) :
    (PredictionEngine.init motor_id d nz).current_tick = 1 ∧
    (PredictionEngine.init motor_id d nz).current_values =
      some (PredictionEngine.stepValues
        (PredictionEngine.applyDraws (PredictionEngine.initState motor_id) d) nz) ∧
    PredictionEngine.get_value (PredictionEngine.init motor_id d nz) "vibration" =
      (PredictionEngine.stepValues
        (PredictionEngine.applyDraws (PredictionEngine.initState motor_id) d) nz).vibration ∧
    PredictionEngine.get_value (PredictionEngine.init motor_id d nz) "temperature" =
      (PredictionEngine.stepValues
        (PredictionEngine.applyDraws (PredictionEngine.initState motor_id) d) nz).temperature ∧
    PredictionEngine.get_value (PredictionEngine.init motor_id d nz) "current" =
      (PredictionEngine.stepValues
        (PredictionEngine.applyDraws (PredictionEngine.initState motor_id) d) nz).current :=
  ⟨rfl, rfl, rfl, rfl, rfl⟩

/-- Counterexample to C1 as stated: for a fresh engine the claim demands
`tick == n mod L` after `n` advances, but already after 0 advances the tick
counter is 1 (the constructor itself runs one compute step), not `0 mod 800 = 0`,
and after 1 advance it is 2, not `1 mod 800 = 1`. -/
theorem claim_C1_counterexample :
    (PredictionEngine.run (PredictionEngine.init "m" lifecycleDraws0 ⟨0, 0, 0⟩)
        (fun _ => stepRand0) 0).total_life = 800 ∧
    (PredictionEngine.run (PredictionEngine.init "m" lifecycleDraws0 ⟨0, 0, 0⟩)
        (fun _ => stepRand0) 0).current_tick = 1 ∧
    ¬ (PredictionEngine.run (PredictionEngine.init "m" lifecycleDraws0 ⟨0, 0, 0⟩)
        (fun _ => stepRand0) 0).current_tick = 0 % 800 ∧
    (PredictionEngine.run (PredictionEngine.init "m" lifecycleDraws0 ⟨0, 0, 0⟩)
        (fun _ => stepRand0) 1).current_tick = 2 ∧
    ¬ (PredictionEngine.run (PredictionEngine.init "m" lifecycleDraws0 ⟨0, 0, 0⟩)
        (fun _ => stepRand0) 1).current_tick = 1 % 800 := by
  refine ⟨by decide, by decide, by decide, by decide, by decide⟩

lemma run_init_tick (motor_id : String) (d : LifecycleDraws) (nz : StepNoise)
    (rs : ℕ → StepRand) :
    ∀ n, n < d.total_life →
      (PredictionEngine.run (PredictionEngine.init motor_id d nz) rs n).current_tick = n + 1 ∧
      (PredictionEngine.run (PredictionEngine.init motor_id d nz) rs n).total_life =
        d.total_life := by
  intro n
  induction n with
  | zero => exact fun _ => ⟨rfl, rfl⟩
  | succ k ih =>
    intro h
    obtain ⟨htick, hlife⟩ := ih (Nat.lt_of_succ_lt h)
    have hguard : ¬ ((PredictionEngine.run (PredictionEngine.init motor_id d nz) rs k).total_life ≤
        (PredictionEngine.run (PredictionEngine.init motor_id d nz) rs k).current_tick) := by
      rw [htick, hlife]
      omega
    show (PredictionEngine.step _ (rs k)).current_tick = k + 1 + 1 ∧
      (PredictionEngine.step _ (rs k)).total_life = d.total_life
    rw [PredictionEngine.step, if_neg hguard]
    exact ⟨by rw [← htick]; rfl, by rw [← hlife]; rfl⟩

/-- Claim C1, amended: the tick counter of a fresh engine is `n + 1` (not
`n mod L`) after `n` advances, as long as `n` is below the initial total life
(the constructor itself already ran one compute step); an advance entered with
`tick >= total_life` resets and leaves the counter at 2 (the reset performs an
inner compute step and the triggering advance a second one); every other
advance increases the counter by exactly 1. -/
theorem claim_C1_amended :
    (∀ (motor_id : String) (d : LifecycleDraws) (nz : StepNoise) (rs : ℕ → StepRand) (n : ℕ),
      n < d.total_life →
      (PredictionEngine.run (PredictionEngine.init motor_id d nz) rs n).current_tick = n + 1) ∧
    (∀ (s : EngineState) (r : StepRand), s.total_life ≤ s.current_tick →
      (PredictionEngine.step s r).current_tick = 2) ∧
    (∀ (s : EngineState) (r : StepRand), s.current_tick < s.total_life →
      (PredictionEngine.step s r).current_tick = s.current_tick + 1) := by
  refine ⟨fun motor_id d nz rs n h => (run_init_tick motor_id d nz rs n h).1, ?_, ?_⟩
  · intro s r h
    rw [PredictionEngine.step, if_pos h]
    rfl
  · intro s r h
    rw [PredictionEngine.step, if_neg (not_le.mpr h)]
    rfl

/-- Witness for the amended C1, at concrete inputs: 3 advances of a fresh
engine with total life 800 end at tick 4; a reset-triggering advance ends at
tick 2; a mid-lifecycle advance adds 1. -/
theorem claim_C1_amended_witness :
    (PredictionEngine.run (PredictionEngine.init "m" lifecycleDraws0 ⟨0, 0, 0⟩)
        (fun _ => stepRand0) 3).current_tick = 3 + 1 ∧
    (PredictionEngine.step engineAtEnd stepRand0).current_tick = 2 ∧
    (PredictionEngine.step engineMid stepRand0).current_tick = engineMid.current_tick + 1 :=
  ⟨claim_C1_amended.1 "m" lifecycleDraws0 ⟨0, 0, 0⟩ (fun _ => stepRand0) 3 (by decide),
   claim_C1_amended.2.1 engineAtEnd stepRand0 (by decide),
   claim_C1_amended.2.2 engineMid stepRand0 (by decide)⟩

/-- Counterexample to C2 as stated: a reset-triggering advance is claimed to
leave the tick counter at 1, but on a state at the end of its lifecycle the
embedded `step` leaves it at 2 (`reset_lifecycle` itself performs an inner
compute step before the triggering advance performs its own). -/
theorem claim_C2_counterexample :
    (PredictionEngine.step engineAtEnd stepRand0).current_tick = 2 ∧
    ¬ (PredictionEngine.step engineAtEnd stepRand0).current_tick = 1 :=
  ⟨by decide, by decide⟩

/-- Claim C2, amended: on an advance entered with `tick >= total_life` the
state is reset with tick 0, the signal values are computed twice — once by the
inner step of `reset_lifecycle` at tick 0 and once by the triggering advance
at tick 1 — so the cached values are those of tick 1 of the new lifecycle and
the tick counter ends at 2; on any other advance the values are computed
exactly once at the entry tick and the counter increases by exactly 1. -/
theorem claim_C2_amended (s : EngineState) (r : StepRand) :
    (s.total_life ≤ s.current_tick →
      (PredictionEngine.step s r).current_tick = 2 ∧
      (PredictionEngine.step s r).current_values =
        some (PredictionEngine.stepValues
          { PredictionEngine.applyDraws s r.reset with current_tick := 1 } r.noise)) ∧
    (s.current_tick < s.total_life →
      (PredictionEngine.step s r).current_tick = s.current_tick + 1 ∧
      (PredictionEngine.step s r).current_values =
        some (PredictionEngine.stepValues s r.noise)) := by
  constructor
  · intro h
    rw [PredictionEngine.step, if_pos h]
    exact ⟨rfl, rfl⟩
  · intro h
    rw [PredictionEngine.step, if_neg (not_le.mpr h)]
    exact ⟨rfl, rfl⟩

/-- Witness for the amended C2 at concrete states: the reset path ends at tick
2 with the tick-1 values of the fresh lifecycle cached, the normal path adds 1
and caches the entry-tick values. -/
theorem claim_C2_amended_witness :
    ((PredictionEngine.step engineAtEnd stepRand0).current_tick = 2 ∧
      (PredictionEngine.step engineAtEnd stepRand0).current_values =
        some (PredictionEngine.stepValues
          { PredictionEngine.applyDraws engineAtEnd stepRand0.reset with current_tick := 1 }
          stepRand0.noise)) ∧
    ((PredictionEngine.step engineMid stepRand0).current_tick = engineMid.current_tick + 1 ∧
      (PredictionEngine.step engineMid stepRand0).current_values =
        some (PredictionEngine.stepValues engineMid stepRand0.noise)) :=
  ⟨(claim_C2_amended engineAtEnd stepRand0).1 (by decide),
   (claim_C2_amended engineMid stepRand0).2 (by decide)⟩

/-- Counterexample to C3 as stated: the claim makes the Normal-branch target
of every kind equal `base_value + Gaussian noise` clamped to at most
`warning_threshold - 0.1`, but the vibration override selects
`base_val + uniform(-0.01, 0.01)` without any clamp: with base 0.5 and warning
threshold 0.55 the selected target is 0.5, above the claimed clamp 0.45. -/
theorem claim_C3_counterexample :
    VibrationSensor.target_rms c3cfg 0.85 0.95 0 0.5 0 0 = 0.5 ∧
    ¬ VibrationSensor.target_rms c3cfg 0.85 0.95 0 0.5 0 0 ≤
        c3cfg.warning_threshold - 0.1 := by
  have h : VibrationSensor.target_rms c3cfg 0.85 0.95 0 0.5 0 0 = 0.5 := by
    rw [VibrationSensor.target_rms, if_pos (by norm_num)]
    norm_num [uniform, c3cfg]
  exact ⟨h, by rw [h]; norm_num [c3cfg]⟩

/-- Claim C3, amended: for the generic model (Temperature/Current), a Normal
draw selects `base_value` plus Gaussian noise of standard deviation
`0.1 * (warning_threshold - base_value)` clamped to at most
`warning_threshold - 0.1`; the Vibration variant overrides target selection in
the Normal branch as well — it uses `base_val + uniform(-0.01, 0.01)` with no
clamp — while its Warning and Critical target selection matches the generic
rule (and only the terminal synthesis step differs there). -/
theorem claim_C3_amended (c : SensorConfig) (pn pw dice z u uW uC : ℚ) :
    (dice < pn →
      GenericSensor.generate_state_based_value c pn pw dice z uW uC =
        min (c.base_val + (c.warning_threshold - c.base_val) * 0.1 * z)
          (c.warning_threshold - 0.1) ∧
      VibrationSensor.target_rms c pn pw dice u uW uC =
        c.base_val + uniform (-0.01) 0.01 u) ∧
    (¬ dice < pn →
      VibrationSensor.target_rms c pn pw dice u uW uC =
        GenericSensor.generate_state_based_value c pn pw dice z uW uC) := by
  constructor
  · intro h
    rw [GenericSensor.generate_state_based_value, if_pos h,
      VibrationSensor.target_rms, if_pos h]
    exact ⟨rfl, rfl⟩
  · intro h
    rw [VibrationSensor.target_rms, if_neg h,
      GenericSensor.generate_state_based_value, if_neg h]

/-- Witness for the amended C3, at concrete inputs: a Normal draw on the
generic model and on the vibration override, and an off-Normal draw where the
two target selections agree. -/
theorem claim_C3_amended_witness :
    (GenericSensor.generate_state_based_value c3cfg 0.85 0.95 0 0 0 0 =
        min (c3cfg.base_val + (c3cfg.warning_threshold - c3cfg.base_val) * 0.1 * 0)
          (c3cfg.warning_threshold - 0.1) ∧
      VibrationSensor.target_rms c3cfg 0.85 0.95 0 0.5 0 0 =
        c3cfg.base_val + uniform (-0.01) 0.01 0.5) ∧
    VibrationSensor.target_rms c3cfg 0.85 0.95 0.9 0.5 0 0 =
      GenericSensor.generate_state_based_value c3cfg 0.85 0.95 0.9 0 0 0 :=
  ⟨(claim_C3_amended c3cfg 0.85 0.95 0 0 0.5 0 0).1 (by norm_num),
   (claim_C3_amended c3cfg 0.85 0.95 0.9 0 0.5 0 0).2 (by norm_num)⟩

/-- Counterexample to C5 as stated: with `p_n = p_w = 0` every draw lands in
the Critical branch, but the final two-decimal rounding can drop the reading
below `critical_threshold`: with critical threshold 0.204 and the uniform draw
landing on the left endpoint, the returned value is 0.2 < 0.204. -/
theorem claim_C5_counterexample :
    TemperatureSensor.simulate c5cfg 0 0 0 0 0 0 = 0.2 ∧
    ¬ c5cfg.critical_threshold ≤ TemperatureSensor.simulate c5cfg 0 0 0 0 0 0 := by
  have h : TemperatureSensor.simulate c5cfg 0 0 0 0 0 0 = 0.2 := by
    rw [TemperatureSensor.simulate, GenericSensor.generate_state_based_value,
      if_neg (by norm_num), if_neg (by norm_num)]
    have hval : uniform c5cfg.critical_threshold c5cfg.max 0 = 51 / 250 := by
      norm_num [uniform, c5cfg]
    rw [hval, max_eq_right (by norm_num : (0 : ℚ) ≤ 51 / 250), round2]
    norm_num [round_eq]
  exact ⟨h, by rw [h]; norm_num [c5cfg]⟩

/-- Claim C5, amended: with `p_n = p_w = 0` every draw lands in the Critical
branch, so the pre-rounding value is at least `critical_threshold`; after
flooring at 0 and rounding to two decimals the returned reading is at least
`critical_threshold - 0.005` (rounding may drop it by up to half a tick, as
the counterexample shows, but no further). -/
theorem claim_C5_amended (c : SensorConfig) (dice z uW uC : ℚ)
    (hdice : 0 ≤ dice) (huC : 0 ≤ uC) (hcm : c.critical_threshold ≤ c.max) :
    c.critical_threshold ≤ GenericSensor.generate_state_based_value c 0 0 dice z uW uC ∧
    c.critical_threshold - 1 / 200 < TemperatureSensor.simulate c 0 0 dice z uW uC ∧
    c.critical_threshold - 1 / 200 < CurrentSensor.simulate c 0 0 dice z uW uC := by
  have hbranch : GenericSensor.generate_state_based_value c 0 0 dice z uW uC =
      uniform c.critical_threshold c.max uC := by
    rw [GenericSensor.generate_state_based_value, if_neg (not_lt.mpr hdice),
      if_neg (not_lt.mpr hdice)]
  have hval : c.critical_threshold ≤
      GenericSensor.generate_state_based_value c 0 0 dice z uW uC := by
    rw [hbranch, uniform]
    nlinarith
  have hmax : c.critical_threshold ≤
      max 0 (GenericSensor.generate_state_based_value c 0 0 dice z uW uC) :=
    le_trans hval (le_max_right _ _)
  refine ⟨hval, ?_, ?_⟩
  · show c.critical_threshold - 1 / 200 <
      round2 (max 0 (GenericSensor.generate_state_based_value c 0 0 dice z uW uC))
    calc c.critical_threshold - 1 / 200 ≤
        max 0 (GenericSensor.generate_state_based_value c 0 0 dice z uW uC) - 1 / 200 := by
          linarith
    _ < _ := sub_lt_round2 _
  · show c.critical_threshold - 1 / 200 <
      round2 (max 0 (GenericSensor.generate_state_based_value c 0 0 dice z uW uC))
    calc c.critical_threshold - 1 / 200 ≤
        max 0 (GenericSensor.generate_state_based_value c 0 0 dice z uW uC) - 1 / 200 := by
          linarith
    _ < _ := sub_lt_round2 _

/-- Witness for the amended C5 at a concrete configuration and draws. -/
theorem claim_C5_amended_witness :
    c5cfg.critical_threshold ≤ GenericSensor.generate_state_based_value c5cfg 0 0 0 0 0 0 ∧
    c5cfg.critical_threshold - 1 / 200 < TemperatureSensor.simulate c5cfg 0 0 0 0 0 0 ∧
    c5cfg.critical_threshold - 1 / 200 < CurrentSensor.simulate c5cfg 0 0 0 0 0 0 :=
  claim_C5_amended c5cfg 0 0 0 0 (by norm_num) (by norm_num) (by norm_num [c5cfg])

/-! ### Helper lemmas about the topology builder -/

lemma snd_mem_of_mem_enum {α : Type} {l : List α} {x : ℕ × α} (h : x ∈ l.enum) :
    x.2 ∈ l := by
  rw [List.mem_enum_iff_getElem?] at h
  exact List.getElem?_mem h

lemma mapM_ok {α β : Type} (f : α → Except String β) (g : α → β) :
    ∀ l : List α, (∀ x ∈ l, f x = Except.ok (g x)) →
      l.mapM f = Except.ok (l.map g) := by
  intro l
  induction l with
  | nil => exact fun _ => rfl
  | cons a t ih =>
    intro h
    rw [List.mapM_cons, h a (List.mem_cons_self a t),
      ih fun x hx => h x (List.mem_cons_of_mem a hx)]
    rfl

/-- The recognized sensor kinds, as a predicate. -/
def knownType (t : String) : Prop :=
  t = "vibration" ∨ t = "temperature" ∨ t = "current"

lemma create_sensor_ok (c : SensorConfig) (h : knownType c.type) :
    create_sensor c = Except.ok (sensorOf c) := by
  rcases h with h | h | h <;> simp [create_sensor, sensorOf, h]

lemma buildEntry_ok (cfg : TopoConfig) (t : TemplateSensor) (s l a : ℕ) (u : ℚ)
    (h : knownType t.type) :
    buildEntry cfg t s l a u = Except.ok (entryOf cfg t s l a u) := by
  by_cases hf : full_id cfg s l a = PREDICTION_ID
  · simp [buildEntry, entryOf, hf]
  · simp [buildEntry, entryOf, hf, create_sensor_ok (mkSensorConf t u) h, Except.map]

lemma buildAsset_ok (cfg : TopoConfig) (tpl : List TemplateSensor) (s l a : ℕ)
    (dr : ℕ → ℕ → ℕ → ℕ → ℚ) (h : ∀ t ∈ tpl, knownType t.type) :
    buildAsset cfg tpl s l a dr =
      Except.ok (tpl.enum.map fun kt => entryOf cfg kt.2 s l a (dr s l a kt.1)) := by
  apply mapM_ok
  intro kt hkt
  exact buildEntry_ok cfg kt.2 s l a _ (h kt.2 (snd_mem_of_mem_enum hkt))

lemma buildLine_ok (cfg : TopoConfig) (tpl : List TemplateSensor) (s l : ℕ)
    (dr : ℕ → ℕ → ℕ → ℕ → ℚ) (h : ∀ t ∈ tpl, knownType t.type) :
    buildLine cfg tpl s l dr =
      Except.ok ((List.range' 1 cfg.assets_per_line.count).flatMap fun a =>
        tpl.enum.map fun kt => entryOf cfg kt.2 s l a (dr s l a kt.1)) := by
  unfold buildLine
  rw [mapM_ok _ (fun a => tpl.enum.map fun kt => entryOf cfg kt.2 s l a (dr s l a kt.1))
    _ (fun a _ => buildAsset_ok cfg tpl s l a dr h)]
  simp [List.flatMap_def]

lemma buildSector_ok (cfg : TopoConfig) (tpl : List TemplateSensor) (s : ℕ)
    (dr : ℕ → ℕ → ℕ → ℕ → ℚ) (h : ∀ t ∈ tpl, knownType t.type) :
    buildSector cfg tpl s dr =
      Except.ok ((List.range' 1 cfg.lines_per_sector.count).flatMap fun l =>
        (List.range' 1 cfg.assets_per_line.count).flatMap fun a =>
          tpl.enum.map fun kt => entryOf cfg kt.2 s l a (dr s l a kt.1)) := by
  unfold buildSector
  rw [mapM_ok _ (fun l => (List.range' 1 cfg.assets_per_line.count).flatMap fun a =>
      tpl.enum.map fun kt => entryOf cfg kt.2 s l a (dr s l a kt.1))
    _ (fun l _ => buildLine_ok cfg tpl s l dr h)]
  simp [List.flatMap_def]

set_option maxHeartbeats 1000000 in
lemma buildTopology_ok (cfg : TopoConfig) (tpl : List TemplateSensor)
    (dr : ℕ → ℕ → ℕ → ℕ → ℚ) (h : ∀ t ∈ tpl, knownType t.type) :
    buildTopology cfg tpl dr = Except.ok (registryOf cfg tpl dr) := by
  have hm := mapM_ok (fun s => buildSector cfg tpl s dr)
    (fun s => (List.range' 1 cfg.lines_per_sector.count).flatMap fun l =>
      (List.range' 1 cfg.assets_per_line.count).flatMap fun a =>
        tpl.enum.map fun kt => entryOf cfg kt.2 s l a (dr s l a kt.1))
    (List.range' 1 cfg.sectors.count) (fun s _ => buildSector_ok cfg tpl s dr h)
  unfold buildTopology
  rw [hm, registryOf, List.flatMap_def]
  rfl

lemma length_flatMap_const {α β : Type} (l : List α) (f : α → List β) (k : ℕ)
    (h : ∀ x ∈ l, (f x).length = k) : (l.flatMap f).length = l.length * k := by
  induction l with
  | nil => simp
  | cons a t ih =>
    rw [List.flatMap_cons, List.length_append, h a (List.mem_cons_self a t),
      ih fun x hx => h x (List.mem_cons_of_mem a hx), List.length_cons]
    ring

lemma registryOf_length (cfg : TopoConfig) (tpl : List TemplateSensor)
    (dr : ℕ → ℕ → ℕ → ℕ → ℚ) :
    (registryOf cfg tpl dr).length =
      cfg.sectors.count * cfg.lines_per_sector.count *
        cfg.assets_per_line.count * tpl.length := by
  have hLine : ∀ s l : ℕ,
      ((List.range' 1 cfg.assets_per_line.count).flatMap fun a =>
        tpl.enum.map fun kt => entryOf cfg kt.2 s l a (dr s l a kt.1)).length =
      cfg.assets_per_line.count * tpl.length := by
    intro s l
    rw [length_flatMap_const _ _ tpl.length
      (fun a _ => by simp [List.enum_length])]
    simp
  have hSector : ∀ s : ℕ,
      ((List.range' 1 cfg.lines_per_sector.count).flatMap fun l =>
        (List.range' 1 cfg.assets_per_line.count).flatMap fun a =>
          tpl.enum.map fun kt => entryOf cfg kt.2 s l a (dr s l a kt.1)).length =
      cfg.lines_per_sector.count * (cfg.assets_per_line.count * tpl.length) := by
    intro s
    rw [length_flatMap_const _ _ (cfg.assets_per_line.count * tpl.length)
      (fun l _ => hLine s l)]
    simp
  unfold registryOf
  rw [length_flatMap_const _ _
    (cfg.lines_per_sector.count * (cfg.assets_per_line.count * tpl.length))
    (fun s _ => hSector s)]
  simp
  ring

/-- Claim C7: the topology builder with the standard 3-kind motor template
succeeds for every count configuration and produces exactly
`sectors x lines x assets x 3` registry entries (namely the pure nested
expansion `registryOf`); for counts 2, 2, 2 this is exactly the listed 24
pairwise-distinct topics, deterministically ordered by sector, line, asset and
template kind. -/
theorem claim_C7 :
    (∀ (cfg : TopoConfig) (dr : ℕ → ℕ → ℕ → ℕ → ℚ),
      buildTopology cfg standard_motor dr =
        Except.ok (registryOf cfg standard_motor dr) ∧
      (topicsOf (buildTopology cfg standard_motor dr)).length =
        cfg.sectors.count * cfg.lines_per_sector.count *
          cfg.assets_per_line.count * 3) ∧
    topicsOf (buildTopology cfgStd222 standard_motor drawZero) =
      ["sector_1/line_1/engine_1/vibration", "sector_1/line_1/engine_1/temperature",
       "sector_1/line_1/engine_1/current",
       "sector_1/line_1/engine_2/vibration", "sector_1/line_1/engine_2/temperature",
       "sector_1/line_1/engine_2/current",
       "sector_1/line_2/engine_1/vibration", "sector_1/line_2/engine_1/temperature",
       "sector_1/line_2/engine_1/current",
       "sector_1/line_2/engine_2/vibration", "sector_1/line_2/engine_2/temperature",
       "sector_1/line_2/engine_2/current",
       "sector_2/line_1/engine_1/vibration", "sector_2/line_1/engine_1/temperature",
       "sector_2/line_1/engine_1/current",
       "sector_2/line_1/engine_2/vibration", "sector_2/line_1/engine_2/temperature",
       "sector_2/line_1/engine_2/current",
       "sector_2/line_2/engine_1/vibration", "sector_2/line_2/engine_1/temperature",
       "sector_2/line_2/engine_1/current",
       "sector_2/line_2/engine_2/vibration", "sector_2/line_2/engine_2/temperature",
       "sector_2/line_2/engine_2/current"] ∧
    (topicsOf (buildTopology cfgStd222 standard_motor drawZero)).Nodup := by
  refine ⟨?_, by decide, by decide⟩
  intro cfg dr
  have htpl : ∀ t ∈ standard_motor, knownType t.type := by
    intro t ht
    fin_cases ht
    · exact Or.inl rfl
    · exact Or.inr (Or.inl rfl)
    · exact Or.inr (Or.inr rfl)
  have hok := buildTopology_ok cfg standard_motor dr htpl
  refine ⟨hok, ?_⟩
  rw [show topicsOf (buildTopology cfg standard_motor dr) =
      (registryOf cfg standard_motor dr).map (fun e => e.topic) from by rw [hok]; rfl]
  rw [List.length_map, registryOf_length]
  rfl

/-- Counterexample to C4 as stated: a configuration the topology builder
accepts whose prefixes never produce the designated identifier binds zero
(not exactly three) registry entries to the lifecycle engine. -/
theorem claim_C4_counterexample :
    (buildTopology cfgZone standard_motor drawZero).isOk = true ∧
    predCount (buildTopology cfgZone standard_motor drawZero) = 0 ∧
    ¬ predCount (buildTopology cfgZone standard_motor drawZero) = 3 :=
  ⟨by decide, by decide, by decide⟩

/-- Claim C4, amended: the core exposes the fixed designated identifier
`PREDICTION_ID = "sector_1/line_1/engine_1"`; a registry entry is bound to the
single shared engine exactly when the full identifier of its asset equals that
id; with the standard prefixes (counts 2, 2, 2) and the 3-kind template this
binds exactly 3 of the 24 entries — the three sensor kinds of the designated
asset.  A configuration whose prefixes never produce `PREDICTION_ID` binds no
entry to the engine. -/
theorem claim_C4_amended :
    PREDICTION_ID = "sector_1/line_1/engine_1" ∧
    (∀ (cfg : TopoConfig) (t : TemplateSensor) (s l a : ℕ) (u : ℚ),
      isPredMode (entryOf cfg t s l a u) = true ↔ full_id cfg s l a = PREDICTION_ID) ∧
    predCount (buildTopology cfgStd222 standard_motor drawZero) = 3 ∧
    predTopics (buildTopology cfgStd222 standard_motor drawZero) =
      ["sector_1/line_1/engine_1/vibration",
       "sector_1/line_1/engine_1/temperature",
       "sector_1/line_1/engine_1/current"] := by
  refine ⟨rfl, ?_, by decide, by decide⟩
  intro cfg t s l a u
  by_cases hf : full_id cfg s l a = PREDICTION_ID <;> simp [entryOf, isPredMode, hf]

/-- Claim C8: `create_sensor` succeeds exactly on the three recognized kinds
(raising the configuration error otherwise), and a topology-build error is the
result of the whole simulation regardless of how many publish-loop iterations
were requested: the loop is never entered, so the failure cannot surface
mid-loop. -/
theorem claim_C8 :
    (∀ c : SensorConfig, (create_sensor c).isOk = true ↔ knownType c.type) ∧
    (∀ (cfg : TopoConfig) (tpl : List TemplateSensor) (dr : ℕ → ℕ → ℕ → ℕ → ℚ)
      (pn pw : ℚ) (er : ℕ → StepRand) (sr : ℕ → ℕ → SensorDraws)
      (d : LifecycleDraws) (nz : StepNoise) (e : String),
      errOf (buildTopology cfg tpl dr) = some e →
      ∀ n : ℕ, errOf (runSim cfg tpl dr pn pw er sr d nz n) = some e) := by
  constructor
  · intro c
    unfold create_sensor knownType
    by_cases h1 : c.type = "vibration" <;> by_cases h2 : c.type = "temperature" <;>
      by_cases h3 : c.type = "current" <;> simp [h1, h2, h3, Except.isOk, Except.toBool]
  · intro cfg tpl dr pn pw er sr d nz e h n
    unfold runSim
    cases hb : buildTopology cfg tpl dr with
    | error e2 =>
      rw [hb] at h
      simp only [errOf] at h
      simp [Except.map, errOf, h]
    | ok reg =>
      rw [hb] at h
      simp [errOf] at h

/-- Witness for C8: a template with kind `"pressure"` on a non-designated
asset makes the build fail with the configuration error, and the simulation
returns that very error for 5 requested iterations without entering the loop.
-/
theorem claim_C8_witness :
    errOf (runSim cfgZone tplBad drawZero 0.85 0.95 (fun _ => stepRand0)
      (fun _ _ => sensorDraws0) lifecycleDraws0 ⟨0, 0, 0⟩ 5) =
      some ("Unknown sensor type: " ++ "pressure") :=
  claim_C8.2 cfgZone tplBad drawZero 0.85 0.95 (fun _ => stepRand0)
    (fun _ _ => sensorDraws0) lifecycleDraws0 ⟨0, 0, 0⟩
    ("Unknown sensor type: " ++ "pressure") (by decide) 5
